import Mathlib

/-!
Shallow embedding of `src/utils/validate_data.py` (the Telco customer churn
data-validation routine `validate_telco_data`) and proofs of the frozen
claims about it.

Modelling conventions:
* A pandas cell is a `Value`: a string, a number, or null (`NaN`/`None`).
  Numbers are embedded as exact rationals (`Rat`); the source works with
  Python/NumPy floats, whose arithmetic in this routine stays within small
  decimal fractions.
* A `DataFrame` is a list of column names plus a list of rows, each row a
  total map from column name to `Value`.
* Operations that raise a Python `TypeError` in pandas (ordering a string
  against a number, sorting a mixed string/number set) are embedded in
  `Except String`; every other operation is total.
* Core `Rat` operations (`mkRat`, `Rat.sub`, `Rat.blt`) stand for the
  source's float arithmetic; `mkRat v t` is `v / t` (`Rat.mkRat_eq_div`).
-/

attribute [local semireducible] Rat.sub

namespace Telco

/-- A cell value of the tabular dataset: string, number, or null. -/
inductive Value where
  | str (s : String)
  | num (q : Rat)
  | null
deriving DecidableEq

/-- `isna` on one cell: only null is missing (a blank string is not null). -/
def Value.isNull : Value → Bool
  | .null => true
  | _ => false

/-- The cell holds a string. -/
def Value.isStr : Value → Bool
  | .str _ => true
  | _ => false

/-- The cell holds a number. -/
def Value.isNum : Value → Bool
  | .num _ => true
  | _ => false

/-- A dataset: named columns and rows, each row a map from column name to
value (pandas `DataFrame`). -/
structure DataFrame where
  columns : List String
  rows : List (String → Value)

/-- `df[c]`: the column `c` as a series, one value per row. -/
def DataFrame.col (df : DataFrame) (c : String) : List Value :=
  df.rows.map (fun r => r c)

/-- Build a row from an association list; absent names read as null. -/
def mkRow (l : List (String × Value)) : String → Value := fun c =>
  match l.find? (fun p => p.1 == c) with
  | some p => p.2
  | none => Value.null

/-- Code-point lexicographic order on character lists, as Python compares
strings. -/
def charListLe : List Char → List Char → Bool
  | [], _ => true
  | _ :: _, [] => false
  | a :: as, b :: bs =>
      if a < b then true else if b < a then false else charListLe as bs

/-- Python's string `<=`: code-point lexicographic. -/
def strLe (a b : String) : Bool := charListLe a.data b.data

/-- Insert an element into a list, before the first element it is `le` to
(insertion step of a stable sort). -/
def insertLe (le : α → α → Bool) (x : α) : List α → List α
  | [] => [x]
  | y :: ys => if le x y then x :: y :: ys else y :: insertLe le x ys

/-- Insertion sort with a boolean `le`; on distinct keys this agrees with
Python's `sorted`. -/
def sortLe (le : α → α → Bool) : List α → List α
  | [] => []
  | x :: xs => insertLe le x (sortLe le xs)

/-- `sorted` over strings. -/
def sortStrings (l : List String) : List String := sortLe strLe l

/-- The run of leading decimal digits as a number, with the rest. -/
def takeDigits : List Char → Nat → Nat × List Char
  | [], acc => (acc, [])
  | c :: cs, acc =>
      if c.isDigit then takeDigits cs (acc * 10 + (c.toNat - 48))
      else (acc, c :: cs)

/-- Count the leading decimal digits. -/
def countDigits : List Char → Nat
  | [] => 0
  | c :: cs => if c.isDigit then countDigits cs + 1 else 0

/-- Parse an unsigned decimal number `digits[.digits]`; at least one digit
must be present. -/
def parseUnsigned (cs : List Char) : Option Rat :=
  let k := countDigits cs
  let (intPart, rest) := takeDigits cs 0
  match rest with
  | [] => if k = 0 then none else some (mkRat intPart 1)
  | '.' :: fracCs =>
      let k2 := countDigits fracCs
      let (fracPart, rest2) := takeDigits fracCs 0
      if rest2 = [] ∧ (k ≠ 0 ∨ k2 ≠ 0) then
        some (mkRat (intPart * 10 ^ k2 + fracPart) (10 ^ k2))
      else none
  | _ => none

/-- Strip surrounding whitespace from a character list. -/
def trimChars (cs : List Char) : List Char :=
  ((cs.dropWhile Char.isWhitespace).reverse.dropWhile Char.isWhitespace).reverse

/-- Numeric parse of a string as `pd.to_numeric(errors="coerce")` treats it:
optional surrounding whitespace and sign, then a plain decimal literal;
anything else (in particular the blank strings of this dataset) coerces to
null. Scientific notation is not modelled; no claim depends on it. -/
def parseNum (s : String) : Option Rat :=
  match trimChars s.data with
  | '-' :: cs => (parseUnsigned cs).map Neg.neg
  | '+' :: cs => parseUnsigned cs
  | cs => parseUnsigned cs

/-- `pd.to_numeric(errors="coerce")` on one cell: numbers pass through,
nulls stay null, strings are parsed or coerced to null. -/
def to_numeric : Value → Option Rat
  | .num q => some q
  | .null => none
  | .str s => parseNum s

/-- The 11 required columns, in the order of the source's set literal. -/
def required_columns : List String :=
  ["customerID", "gender", "Partner", "Dependents", "PhoneService",
   "InternetService", "Contract", "tenure", "MonthlyCharges",
   "TotalCharges", "Churn"]

/-- `sorted(required_columns - set(df.columns))`: the required columns not
present, in sorted order. -/
def missingCols (cols : List String) : List String :=
  sortStrings (required_columns.filter (fun c => !(cols.contains c)))

/-- Render a value inside a failure message. -/
def valueRepr : Value → String
  | .str s => s
  | .num q => toString q
  | .null => "null"

def msgMissingColumns (missing : List String) : String :=
  "Missing required columns: " ++ toString missing

def msgColContainsNulls (c : String) (n : Nat) : String :=
  "Column '" ++ c ++ "' contains " ++ toString n ++ " nulls"

def msgUnexpectedValues (c : String) (bad : List Value)
    (allowed : List String) : String :=
  "Unexpected values in '" ++ c ++ "': " ++ toString (bad.map valueRepr) ++
    "; allowed=" ++ toString (sortStrings allowed)

def msgTCNonNumeric (n : Nat) : String :=
  "'TotalCharges' has " ++ toString n ++ " non-numeric values where tenure > 0"

/-- The diagnostic-only notice printed for blank `TotalCharges` at
`tenure == 0` (a console line in the source, not a failure). -/
def msgTCDiagnostic (n : Nat) : String :=
  toString n ++ " non-numeric 'TotalCharges' for tenure==0; allowed"

def msgTenureNegative : String := "'tenure' contains negative values"

def msgMCNegative : String := "'MonthlyCharges' contains negative values"

def msgTCNegative : String := "'TotalCharges' contains negative values"

def msgTenureBound : String :=
  "'tenure' exceeds 120 months (10 years) in some rows"

def msgMCBound : String := "'MonthlyCharges' exceeds 200 in some rows"

def msgTenureHasNulls (n : Nat) : String :=
  "'tenure' has " ++ toString n ++ " nulls"

def msgMCHasNulls (n : Nat) : String :=
  "'MonthlyCharges' has " ++ toString n ++ " nulls"

def msgInsufficientComparable : String :=
  "Not enough non-null rows to evaluate 'TotalCharges >= MonthlyCharges'"

def msgChurnValues (extras : List Value) : String :=
  "Unexpected values in 'Churn': " ++ toString (extras.map valueRepr) ++
    " (expected 'Yes'/'No')"

def msgDuplicates (n : Nat) : String :=
  "'customerID' has " ++ toString n ++ " duplicate values"

/-- `_non_null_count` of the source: despite its name it returns
`int(s.isna().sum())`, the number of NULL entries of the series. -/
def non_null_count (s : List Value) : Nat :=
  (s.filter (fun v => v.isNull)).length

/-- The columns of the source's `key_not_null` list. -/
def key_not_null : List String := ["customerID", "tenure", "MonthlyCharges"]

/-- Step 2, basic null checks: one failure per key column that has nulls,
in list order; checks continue after a failure. -/
def nullCheckFailures (df : DataFrame) : List String :=
  key_not_null.filterMap (fun c =>
    let nn := non_null_count (df.col c)
    if nn > 0 then some (msgColContainsNulls c nn) else none)

/-- `df[c].dropna().unique()` as a set: the distinct non-null values.
The order of first appearance is irrelevant here because every use sorts
the result, so `List.dedup` serves. -/
def uniqueVals (s : List Value) : List Value :=
  (s.filter (fun v => !v.isNull)).dedup

/-- Ordering used by Python's `sorted` on the homogeneous sets this routine
sorts; comparing a string with a number has no order (see `sortValues`). -/
def valueLe : Value → Value → Bool
  | .str a, .str b => strLe a b
  | .num a, .num b => Rat.blt b a = false
  | _, _ => false

/-- Python's `sorted` over a set of values: succeeds on all-string or
all-number input, raises `TypeError` on a mixed set. -/
def sortValues (vs : List Value) : Except String (List Value) :=
  if vs.all (fun v => v.isStr) || vs.all (fun v => v.isNum) then
    Except.ok (sortLe valueLe vs)
  else Except.error "TypeError: unorderable value set"

/-- The source's inner `check_in_set`: distinct non-null values minus the
allowed set, sorted; a failure if any remain. -/
def check_in_set (df : DataFrame) (c : String) (allowed : List String) :
    Except String (List String) :=
  (sortValues ((uniqueVals (df.col c)).filter
      (fun v => !(allowed.any (fun a => v == Value.str a))))).map
    (fun bad => if bad.isEmpty then [] else [msgUnexpectedValues c bad allowed])

/-- Step 3, the six value-set checks, in source order. -/
def valueSetFailures (df : DataFrame) : Except String (List String) :=
  (check_in_set df "gender" ["Male", "Female"]).bind fun f1 =>
  (check_in_set df "Partner" ["Yes", "No"]).bind fun f2 =>
  (check_in_set df "Dependents" ["Yes", "No"]).bind fun f3 =>
  (check_in_set df "PhoneService" ["Yes", "No"]).bind fun f4 =>
  (check_in_set df "Contract" ["Month-to-month", "One year", "Two year"]).bind fun f5 =>
  (check_in_set df "InternetService" ["DSL", "Fiber optic", "No"]).bind fun f6 =>
  Except.ok (f1 ++ f2 ++ f3 ++ f4 ++ f5 ++ f6)

/-- Elementwise `v < q` against a numeric scalar: numbers compare, null
(`NaN`) compares false. A string raises, handled in `seriesLtScalar`. -/
def ltB (v : Value) (q : Rat) : Bool :=
  match v with
  | .num x => decide (x < q)
  | _ => false

/-- Elementwise `v > q`, as `ltB`. -/
def gtB (v : Value) (q : Rat) : Bool :=
  match v with
  | .num x => decide (q < x)
  | _ => false

/-- Elementwise `v == q`: equality never raises in pandas; a string or a
null is simply not equal to a number. -/
def eqB (v : Value) (q : Rat) : Bool :=
  match v with
  | .num x => decide (x = q)
  | _ => false

/-- `series < q` in pandas: raises `TypeError` if the series holds any
string, otherwise compares elementwise (null/NaN gives false). -/
def seriesLtScalar (s : List Value) (q : Rat) : Except String (List Bool) :=
  if s.all (fun v => !v.isStr) then Except.ok (s.map (fun v => ltB v q))
  else Except.error "TypeError: < not supported between str and number"

/-- `series > q` in pandas, as `seriesLtScalar`. -/
def seriesGtScalar (s : List Value) (q : Rat) : Except String (List Bool) :=
  if s.all (fun v => !v.isStr) then Except.ok (s.map (fun v => gtB v q))
  else Except.error "TypeError: > not supported between str and number"

/-- `pd.to_numeric(df["TotalCharges"], errors="coerce")`. -/
def tc_numeric (df : DataFrame) : List (Option Rat) :=
  (df.col "TotalCharges").map to_numeric

/-- `tc_numeric.isna() & df["TotalCharges"].notna()`: non-null values that
failed the numeric parse. -/
def non_numeric_mask (df : DataFrame) : List Bool :=
  List.zipWith (fun o v => o.isNone && !v.isNull)
    (tc_numeric df) (df.col "TotalCharges")

/-- `non_numeric_mask & (df["tenure"] == 0)` (computed but unused in the
source beyond documentation). -/
def ok_blank_mask (df : DataFrame) : List Bool :=
  List.zipWith and (non_numeric_mask df)
    ((df.col "tenure").map (fun v => eqB v 0))

/-- `non_numeric_mask & (df["tenure"] > 0)`. -/
def real_issues_mask (df : DataFrame) : List Bool :=
  List.zipWith and (non_numeric_mask df)
    ((df.col "tenure").map (fun v => gtB v 0))

/-- `int(mask.sum())`. -/
def countTrue (l : List Bool) : Nat := (l.filter id).length

/-- Step 4, the `TotalCharges` coercion check with the tenure-zero
exception. Returns the appended failures and the optional diagnostic-only
console notice. Raises iff `df["tenure"] > 0` raises (a string in
`tenure`). -/
def tcCoercionStep (df : DataFrame) :
    Except String (List String × Option String) :=
  if (df.col "tenure").all (fun v => !v.isStr) then
    Except.ok
      (if (real_issues_mask df).any id then
        ([msgTCNonNumeric (countTrue (real_issues_mask df))], none)
      else if (non_numeric_mask df).any id then
        ([], some (msgTCDiagnostic (countTrue (non_numeric_mask df))))
      else ([], none))
  else Except.error "TypeError: > not supported between str and number"

/-- Step 5, non-negativity: `tenure < 0`, `MonthlyCharges < 0`, then the
parsed `TotalCharges` values (`tc_numeric.dropna() < 0`, which cannot
raise). -/
def nonNegFailures (df : DataFrame) : Except String (List String) :=
  (seriesLtScalar (df.col "tenure") 0).bind fun tenNeg =>
  (seriesLtScalar (df.col "MonthlyCharges") 0).bind fun mcNeg =>
  Except.ok
    ((if tenNeg.any id then [msgTenureNegative] else []) ++
     (if mcNeg.any id then [msgMCNegative] else []) ++
     (if ((tc_numeric df).filterMap id).any (fun q => decide (q < 0)) then
        [msgTCNegative] else []))

/-- Step 6, reasonable bounds: `tenure > 120`, `MonthlyCharges > 200`. -/
def boundsFailures (df : DataFrame) : Except String (List String) :=
  (seriesGtScalar (df.col "tenure") 120).bind fun tenBig =>
  (seriesGtScalar (df.col "MonthlyCharges") 200).bind fun mcBig =>
  Except.ok
    ((if tenBig.any id then [msgTenureBound] else []) ++
     (if mcBig.any id then [msgMCBound] else []))

/-- Step 7, the second (redundant by design) null checks on the numeric
columns, with `isna().any()` guards. -/
def numericNullFailures (df : DataFrame) : List String :=
  (if (df.col "tenure").any (fun v => v.isNull) then
    [msgTenureHasNulls (non_null_count (df.col "tenure"))] else []) ++
  (if (df.col "MonthlyCharges").any (fun v => v.isNull) then
    [msgMCHasNulls (non_null_count (df.col "MonthlyCharges"))] else [])

/-- The comparable rows: parsed `TotalCharges` and `MonthlyCharges` both
non-null (`(~tc_numeric.isna()) & (~df["MonthlyCharges"].isna())`). -/
def comparablePairs (df : DataFrame) : List (Option Rat × Value) :=
  ((tc_numeric df).zip (df.col "MonthlyCharges")).filter
    (fun p => !p.1.isNone && !p.2.isNull)

/-- One comparable row violating `TotalCharges >= MonthlyCharges`. -/
def pairViolation : Option Rat × Value → Bool
  | (some x, .num y) => decide (x < y)
  | _ => false

/-- `violations`: comparable rows with `TotalCharges < MonthlyCharges`. -/
def violationsCount (df : DataFrame) : Nat :=
  ((comparablePairs df).filter pairViolation).length

/-- `frac_ok = 1.0 - violations / total` over the comparable rows
(`mkRat v t` is `v / t`, see `Rat.mkRat_eq_div`). -/
def frac_ok (df : DataFrame) : Rat :=
  Rat.sub 1 (mkRat (violationsCount df) (comparablePairs df).length)

/-- Zero-pad a number below 1000 to three digits. -/
def pad3 (n : Nat) : String :=
  if n < 10 then "00" ++ toString n
  else if n < 100 then "0" ++ toString n
  else toString n

/-- Python's `f"{q:.3%}"` for the nonnegative fractions used here: the
percentage with three decimals (rounding half up; the format's exact tie
behaviour on floats is not claim-relevant). -/
def percent3 (q : Rat) : String :=
  let n : Nat := (q.num.toNat * 100000 + q.den / 2) / q.den
  toString (n / 1000) ++ "." ++ pad3 (n % 1000) ++ "%"

def msgConsistency (frac : Rat) (v t : Nat) : String :=
  "'TotalCharges >= MonthlyCharges' holds for " ++ percent3 frac ++
    " of rows; expected ≥ 95% (violations=" ++ toString v ++ "/" ++
    toString t ++ ")"

/-- Step 8, cross-column consistency. Zero comparable rows is itself a
failure; otherwise the 0.95 threshold applies. The elementwise `<` of
`tc_numeric[comparable] < df.loc[comparable, "MonthlyCharges"]` raises when
a comparable `MonthlyCharges` cell holds a string. -/
def consistencyFailures (df : DataFrame) : Except String (List String) :=
  let comparable := comparablePairs df
  if comparable.isEmpty then Except.ok [msgInsufficientComparable]
  else if comparable.all (fun p => !p.2.isStr) then
    Except.ok
      (if frac_ok df < mkRat 95 100 then
        [msgConsistency (frac_ok df) (violationsCount df) comparable.length]
      else [])
  else Except.error "TypeError: < not supported between str and number"

/-- Step 9, target sanity: distinct non-null `Churn` values outside
`{Yes, No}`, sorted. -/
def churnFailures (df : DataFrame) : Except String (List String) :=
  (sortValues ((uniqueVals (df.col "Churn")).filter
      (fun v => !(v == Value.str "Yes" || v == Value.str "No")))).map
    (fun extras => if extras.isEmpty then [] else [msgChurnValues extras])

/-- Occurrences beyond the first of each value (`duplicated().sum()`),
walking the list with the set of values already seen. -/
def duplicatedAux : List Value → List Value → Nat
  | [], _ => 0
  | v :: rest, seen => (if v ∈ seen then 1 else 0) + duplicatedAux rest (v :: seen)

/-- `int(df["customerID"].duplicated().sum())`. -/
def duplicatedCount (s : List Value) : Nat := duplicatedAux s []

/-- Step 10, `customerID` uniqueness. -/
def dupFailures (df : DataFrame) : List String :=
  let dupes := duplicatedCount (df.col "customerID")
  if dupes > 0 then [msgDuplicates dupes] else []

/-- Steps 2-10 of the source in order, accumulating the failure messages;
an embedded `TypeError` aborts the run exactly where the source would
raise. The diagnostic notice of step 4 is console output, so only the
failure component of `tcCoercionStep` is appended. -/
def bodyChecks (df : DataFrame) : Except String (List String) :=
  (valueSetFailures df).bind fun vsFails =>
  (tcCoercionStep df).bind fun tcStep =>
  (nonNegFailures df).bind fun nnFails =>
  (boundsFailures df).bind fun bFails =>
  (consistencyFailures df).bind fun consFails =>
  (churnFailures df).bind fun churnFails =>
  Except.ok
    (nullCheckFailures df ++ vsFails ++ tcStep.1 ++ nnFails ++ bFails ++
     numericNullFailures df ++ consFails ++ churnFails ++ dupFailures df)

/-- Final aggregation: `is_valid = failures.isEmpty()`, failures in append
order. -/
def validateBody (df : DataFrame) : Except String (Bool × List String) :=
  (bodyChecks df).bind fun failures =>
  if failures.isEmpty then Except.ok (true, [])
  else Except.ok (false, failures)

/-- `validate_telco_data(df)`: the schema check with early exit, then the
remaining checks and the final aggregation. -/
def validate (df : DataFrame) : Except String (Bool × List String) :=
  let missing := missingCols df.columns
  if missing.isEmpty then validateBody df
  else Except.ok (false, [msgMissingColumns missing])

/-- Row view of `non_numeric_mask`: the row's `TotalCharges` is non-null
but fails the numeric parse. -/
def rowNonNumeric (r : String → Value) : Bool :=
  (to_numeric (r "TotalCharges")).isNone && !(r "TotalCharges").isNull

/-- Row view of `real_issues_mask`: non-numeric `TotalCharges` with
`tenure > 0`. -/
def rowRealIssue (r : String → Value) : Bool :=
  rowNonNumeric r && gtB (r "tenure") 0

/-- Row view of `ok_blank_mask`: non-numeric `TotalCharges` with
`tenure == 0`. -/
def rowOkBlank (r : String → Value) : Bool :=
  rowNonNumeric r && eqB (r "tenure") 0

/-- A fully valid row of the minimal passing dataset. -/
def validRow : String → Value := mkRow
  [("customerID", Value.str "0001-A"), ("gender", Value.str "Male"),
   ("Partner", Value.str "Yes"), ("Dependents", Value.str "No"),
   ("PhoneService", Value.str "Yes"), ("InternetService", Value.str "DSL"),
   ("Contract", Value.str "One year"), ("tenure", Value.num (mkRat 5 1)),
   ("MonthlyCharges", Value.num (mkRat 50 1)),
   ("TotalCharges", Value.str "250.5"), ("Churn", Value.str "No")]

/-- The minimal dataset that passes every check. -/
def validDf : DataFrame := ⟨required_columns, [validRow]⟩

/-- A dataset missing the `Contract` column whose one row also carries a
negative `tenure`. -/
def dfMissingContract : DataFrame :=
  ⟨["customerID", "gender", "Partner", "Dependents", "PhoneService",
    "InternetService", "tenure", "MonthlyCharges", "TotalCharges", "Churn"],
   [mkRow
     [("customerID", Value.str "0001-A"), ("gender", Value.str "Male"),
      ("Partner", Value.str "Yes"), ("Dependents", Value.str "No"),
      ("PhoneService", Value.str "Yes"), ("InternetService", Value.str "DSL"),
      ("tenure", Value.num (mkRat (-1) 1)),
      ("MonthlyCharges", Value.num (mkRat 50 1)),
      ("TotalCharges", Value.num (mkRat 250 1)), ("Churn", Value.str "No")]]⟩

/-- All 11 required columns, zero rows. -/
def dfEmpty : DataFrame := ⟨required_columns, []⟩

/-- All 11 required columns plus an extra one. -/
def dfExtra : DataFrame := ⟨required_columns ++ ["SeniorCitizen"], [validRow]⟩

/-- A row with a blank (non-numeric) `TotalCharges` and positive tenure. -/
def blankTCRow : String → Value := mkRow
  [("customerID", Value.str "0002-B"), ("gender", Value.str "Female"),
   ("Partner", Value.str "No"), ("Dependents", Value.str "No"),
   ("PhoneService", Value.str "Yes"), ("InternetService", Value.str "No"),
   ("Contract", Value.str "Two year"), ("tenure", Value.num (mkRat 7 1)),
   ("MonthlyCharges", Value.num (mkRat 40 1)),
   ("TotalCharges", Value.str " "), ("Churn", Value.str "Yes")]

/-- Dataset whose only row is a real coercion issue (blank `TotalCharges`
at `tenure > 0`). -/
def dfCoercion : DataFrame := ⟨required_columns, [blankTCRow]⟩

/-- A row with a null `tenure`. -/
def nullTenureRow : String → Value := mkRow
  [("customerID", Value.str "0003-C"), ("gender", Value.str "Male"),
   ("Partner", Value.str "No"), ("Dependents", Value.str "No"),
   ("PhoneService", Value.str "Yes"), ("InternetService", Value.str "DSL"),
   ("Contract", Value.str "One year"), ("tenure", Value.null),
   ("MonthlyCharges", Value.num (mkRat 60 1)),
   ("TotalCharges", Value.num (mkRat 60 1)), ("Churn", Value.str "No")]

/-- Valid dataset except for one null `tenure` entry. -/
def dfNullTenure : DataFrame := ⟨required_columns, [nullTenureRow, validRow]⟩

/-- A row with a blank `TotalCharges` and a null `tenure`. -/
def blankTCNullTenureRow : String → Value := mkRow
  [("customerID", Value.str "0004-D"), ("gender", Value.str "Female"),
   ("Partner", Value.str "Yes"), ("Dependents", Value.str "No"),
   ("PhoneService", Value.str "Yes"), ("InternetService", Value.str "DSL"),
   ("Contract", Value.str "One year"), ("tenure", Value.null),
   ("MonthlyCharges", Value.num (mkRat 30 1)),
   ("TotalCharges", Value.str " "), ("Churn", Value.str "No")]

/-- Dataset whose only non-numeric `TotalCharges` row has a null tenure. -/
def dfBlankNullTenure : DataFrame :=
  ⟨required_columns, [blankTCNullTenureRow, validRow]⟩

/-- A comparable row violating `TotalCharges >= MonthlyCharges`. -/
def violatingRow : String → Value := mkRow
  [("customerID", Value.str "0005-E"), ("gender", Value.str "Male"),
   ("Partner", Value.str "Yes"), ("Dependents", Value.str "No"),
   ("PhoneService", Value.str "Yes"), ("InternetService", Value.str "DSL"),
   ("Contract", Value.str "One year"), ("tenure", Value.num (mkRat 3 1)),
   ("MonthlyCharges", Value.num (mkRat 50 1)),
   ("TotalCharges", Value.num (mkRat 10 1)), ("Churn", Value.str "No")]

/-- 100 comparable rows, 6 of which violate the consistency rule. -/
def df100 : DataFrame :=
  ⟨required_columns, List.replicate 94 validRow ++ List.replicate 6 violatingRow⟩

/-- 100 comparable rows, 5 of which violate the consistency rule. -/
def df100ok : DataFrame :=
  ⟨required_columns, List.replicate 95 validRow ++ List.replicate 5 violatingRow⟩

/-- Column typing as a standard CSV import of this dataset delivers it:
the numeric columns `tenure` and `MonthlyCharges` hold no strings, the
categorical columns hold no numbers (`TotalCharges` and `customerID` are
unconstrained). -/
def wellFormedB (df : DataFrame) : Bool :=
  (df.col "tenure").all (fun v => !v.isStr) &&
  (df.col "MonthlyCharges").all (fun v => !v.isStr) &&
  (["gender", "Partner", "Dependents", "PhoneService", "Contract",
    "InternetService", "Churn"].all
      (fun c => (df.col c).all (fun v => !v.isNum)))

/-- One comparison step of `charListLe`, spelled out. -/
theorem charListLe_cons (a b : Char) (as bs : List Char) :
    charListLe (a :: as) (b :: bs) = true ↔
      a < b ∨ (a = b ∧ charListLe as bs = true) := by
  by_cases hab : a < b
  · simp [charListLe, hab]
  · by_cases hba : b < a
    · have hne : a ≠ b := ne_of_gt hba
      simp [charListLe, hab, hba, hne]
    · have heq : a = b := le_antisymm (not_lt.mp hba) (not_lt.mp hab)
      simp [charListLe, hab, hba, heq]

theorem charListLe_total (as bs : List Char) :
    charListLe as bs = true ∨ charListLe bs as = true := by
  induction as generalizing bs with
  | nil => exact Or.inl rfl
  | cons a as ih =>
    cases bs with
    | nil => exact Or.inr rfl
    | cons b bs =>
      rcases lt_trichotomy a b with hab | hab | hab
      · exact Or.inl ((charListLe_cons a b as bs).mpr (Or.inl hab))
      · rcases ih bs with h | h
        · exact Or.inl ((charListLe_cons a b as bs).mpr (Or.inr ⟨hab, h⟩))
        · exact Or.inr ((charListLe_cons b a bs as).mpr (Or.inr ⟨hab.symm, h⟩))
      · exact Or.inr ((charListLe_cons b a bs as).mpr (Or.inl hab))

theorem charListLe_trans (as bs cs : List Char)
    (h1 : charListLe as bs = true) (h2 : charListLe bs cs = true) :
    charListLe as cs = true := by
  induction as generalizing bs cs with
  | nil => rfl
  | cons a as ih =>
    cases bs with
    | nil => simp [charListLe] at h1
    | cons b bs =>
      cases cs with
      | nil => simp [charListLe] at h2
      | cons c cs =>
        rcases (charListLe_cons a b as bs).mp h1 with hab | ⟨hab, h1'⟩ <;>
          rcases (charListLe_cons b c bs cs).mp h2 with hbc | ⟨hbc, h2'⟩
        · exact (charListLe_cons a c as cs).mpr (Or.inl (lt_trans hab hbc))
        · exact (charListLe_cons a c as cs).mpr (Or.inl (hbc ▸ hab))
        · exact (charListLe_cons a c as cs).mpr (Or.inl (hab ▸ hbc))
        · exact (charListLe_cons a c as cs).mpr
            (Or.inr ⟨hab.trans hbc, ih bs cs h1' h2'⟩)

theorem strLe_total (a b : String) : strLe a b = true ∨ strLe b a = true :=
  charListLe_total a.data b.data

theorem strLe_trans (a b c : String) (h1 : strLe a b = true)
    (h2 : strLe b c = true) : strLe a c = true :=
  charListLe_trans a.data b.data c.data h1 h2

/-- Inserting only adds the element: same members as `x :: l`. -/
theorem mem_insertLe (le : α → α → Bool) (x : α) (l : List α) (z : α) :
    z ∈ insertLe le x l ↔ z = x ∨ z ∈ l := by
  induction l with
  | nil => simp [insertLe]
  | cons y ys ih =>
    by_cases hxy : le x y = true
    · simp [insertLe, hxy]
    · simp [insertLe, hxy, ih]
      tauto

/-- Inserting into a pairwise-ordered list keeps it pairwise ordered. -/
theorem pairwise_insertLe (le : α → α → Bool)
    (htot : ∀ a b, le a b = true ∨ le b a = true)
    (htrans : ∀ a b c, le a b = true → le b c = true → le a c = true)
    (x : α) (l : List α) (hl : l.Pairwise (fun a b => le a b = true)) :
    (insertLe le x l).Pairwise (fun a b => le a b = true) := by
  induction l with
  | nil => simp [insertLe]
  | cons y ys ih =>
    rcases List.pairwise_cons.mp hl with ⟨hy, hys⟩
    by_cases hxy : le x y = true
    · simp only [insertLe, hxy, if_pos]
      refine List.pairwise_cons.mpr ⟨?_, hl⟩
      intro z hz
      rcases List.mem_cons.mp hz with rfl | hz
      · exact hxy
      · exact htrans x y z hxy (hy z hz)
    · simp only [insertLe, hxy, if_neg, Bool.not_eq_true]
      refine List.pairwise_cons.mpr ⟨?_, ih hys⟩
      intro z hz
      rcases (mem_insertLe le x ys z).mp hz with rfl | hz
      · rcases htot z y with h | h
        · exact absurd h hxy
        · exact h
      · exact hy z hz

/-- The sort's output is pairwise ordered. -/
theorem pairwise_sortLe (le : α → α → Bool)
    (htot : ∀ a b, le a b = true ∨ le b a = true)
    (htrans : ∀ a b c, le a b = true → le b c = true → le a c = true)
    (l : List α) : (sortLe le l).Pairwise (fun a b => le a b = true) := by
  induction l with
  | nil => simp [sortLe]
  | cons x xs ih => exact pairwise_insertLe le htot htrans x (sortLe le xs) ih

/-- Sorting preserves membership. -/
theorem mem_sortLe (le : α → α → Bool) (l : List α) (z : α) :
    z ∈ sortLe le l ↔ z ∈ l := by
  induction l with
  | nil => simp [sortLe]
  | cons x xs ih => simp [sortLe, mem_insertLe, ih]

/-- Sorting preserves length, so in particular emptiness. -/
theorem length_sortLe (le : α → α → Bool) (l : List α) :
    (sortLe le l).length = l.length := by
  induction l with
  | nil => rfl
  | cons x xs ih =>
    have hins : ∀ (m : List α), (insertLe le x m).length = m.length + 1 := by
      intro m
      induction m with
      | nil => rfl
      | cons y ys ihy =>
        by_cases hxy : le x y = true
        · simp [insertLe, hxy]
        · simp [insertLe, hxy, ihy]
    simp [sortLe, hins, ih]

/-- Zipping two maps over the same list is a single map. -/
theorem zipWith_map_same (f : β → γ → δ) (g : α → β) (h : α → γ)
    (l : List α) :
    List.zipWith f (l.map g) (l.map h) = l.map (fun x => f (g x) (h x)) := by
  induction l with
  | nil => rfl
  | cons x xs ih => simp [ih]

/-- The column-wise non-numeric mask is the row-wise predicate. -/
theorem non_numeric_mask_eq_map (df : DataFrame) :
    non_numeric_mask df = df.rows.map rowNonNumeric := by
  simp only [non_numeric_mask, tc_numeric, DataFrame.col, List.map_map]
  exact zipWith_map_same _ _ _ df.rows

/-- The column-wise real-issues mask is the row-wise predicate. -/
theorem real_issues_mask_eq_map (df : DataFrame) :
    real_issues_mask df = df.rows.map rowRealIssue := by
  simp only [real_issues_mask, non_numeric_mask_eq_map, DataFrame.col,
    List.map_map]
  exact zipWith_map_same _ _ _ df.rows

/-- The column-wise tenure-zero mask is the row-wise predicate. -/
theorem ok_blank_mask_eq_map (df : DataFrame) :
    ok_blank_mask df = df.rows.map rowOkBlank := by
  simp only [ok_blank_mask, non_numeric_mask_eq_map, DataFrame.col,
    List.map_map]
  exact zipWith_map_same _ _ _ df.rows

/-- Counting trues of a mapped mask is counting matching elements. -/
theorem countTrue_map (f : α → Bool) (l : List α) :
    countTrue (l.map f) = (l.filter f).length := by
  induction l with
  | nil => rfl
  | cons x xs ih =>
    by_cases h : f x <;>
      simp [countTrue, List.filter_cons, h] <;>
      simpa [countTrue] using ih

/-- Inverting a successful `bodyChecks` run: every fallible step succeeded
and the failure list is the concatenation of the steps' lists in source
order. -/
theorem bodyChecks_ok_inv (df : DataFrame) (L : List String)
    (h : bodyChecks df = Except.ok L) :
    ∃ vs tc nn bd cons ch,
      valueSetFailures df = Except.ok vs ∧
      tcCoercionStep df = Except.ok tc ∧
      nonNegFailures df = Except.ok nn ∧
      boundsFailures df = Except.ok bd ∧
      consistencyFailures df = Except.ok cons ∧
      churnFailures df = Except.ok ch ∧
      L = nullCheckFailures df ++ vs ++ tc.1 ++ nn ++ bd ++
          numericNullFailures df ++ cons ++ ch ++ dupFailures df := by
  unfold bodyChecks at h
  rcases h1 : valueSetFailures df with e | vs
  · rw [h1] at h; exact Except.noConfusion h
  rw [h1] at h; simp only [Except.bind] at h
  rcases h2 : tcCoercionStep df with e | tc
  · rw [h2] at h; exact Except.noConfusion h
  rw [h2] at h; simp only [Except.bind] at h
  rcases h3 : nonNegFailures df with e | nn
  · rw [h3] at h; exact Except.noConfusion h
  rw [h3] at h; simp only [Except.bind] at h
  rcases h4 : boundsFailures df with e | bd
  · rw [h4] at h; exact Except.noConfusion h
  rw [h4] at h; simp only [Except.bind] at h
  rcases h5 : consistencyFailures df with e | cons
  · rw [h5] at h; exact Except.noConfusion h
  rw [h5] at h; simp only [Except.bind] at h
  rcases h6 : churnFailures df with e | ch
  · rw [h6] at h; exact Except.noConfusion h
  rw [h6] at h; simp only [Except.bind] at h
  exact ⟨vs, tc, nn, bd, cons, ch, rfl, rfl, rfl, rfl, rfl, rfl,
    (Except.ok.inj h).symm⟩

/-- C1: a dataset missing at least one required column makes `validate`
return `is_valid = false` with exactly one failure message, which lists
the missing columns in sorted order; no other check contributes a failure
(the function returns before any other check runs). -/
theorem missing_columns_early_exit (df : DataFrame) (c : String)
    (hreq : c ∈ required_columns) (hmiss : c ∉ df.columns) :
    validate df =
      Except.ok (false, [msgMissingColumns (missingCols df.columns)]) ∧
    (missingCols df.columns).Pairwise (fun a b => strLe a b = true) := by
  have hc : c ∈ missingCols df.columns := by
    unfold missingCols sortStrings
    rw [mem_sortLe]
    refine List.mem_filter.mpr ⟨hreq, ?_⟩
    simp [List.contains, List.elem_eq_mem, hmiss]
  have hne : ¬(missingCols df.columns).isEmpty := by
    intro h
    rw [List.isEmpty_iff] at h
    rw [h] at hc
    exact absurd hc (List.not_mem_nil c)
  constructor
  · unfold validate
    rw [if_neg hne]
  · unfold missingCols sortStrings
    exact pairwise_sortLe strLe strLe_total strLe_trans _

/-- C1 witness: the dataset missing `Contract` with a negative `tenure`
reports only the missing-column failure. -/
theorem missing_columns_early_exit_witness :
    ((dfMissingContract.col "tenure").any (fun v => ltB v 0) = true) ∧
    (validate dfMissingContract =
      Except.ok
        (false, [msgMissingColumns (missingCols dfMissingContract.columns)]) ∧
    (missingCols dfMissingContract.columns).Pairwise
      (fun a b => strLe a b = true)) :=
  ⟨by decide,
   missing_columns_early_exit dfMissingContract "Contract" (by decide)
     (by decide)⟩

set_option maxHeartbeats 1600000 in
/-- C5: with all required columns present and zero rows, the schema check
passes, every count-based check appends nothing, and only the
insufficient-comparable-data failure is appended, so the result is
invalid. -/
theorem empty_dataset_invalid (cols : List String)
    (hmiss : missingCols cols = []) :
    validate ⟨cols, []⟩ = Except.ok (false, [msgInsufficientComparable]) := by
  unfold validate
  have : (missingCols (DataFrame.mk cols []).columns).isEmpty := by
    simp [hmiss]
  rw [if_pos this]
  rfl

/-- C5 witness: the concrete empty dataset over the 11 required columns. -/
theorem empty_dataset_invalid_witness :
    missingCols dfEmpty.columns = [] ∧
    validate dfEmpty = Except.ok (false, [msgInsufficientComparable]) :=
  ⟨by decide, empty_dataset_invalid required_columns (by decide)⟩

/-- C8: `validate` is deterministic — it is a pure function of the
dataset, so two calls on the same unmodified input return identical
results (same verdict, same ordered failure list). -/
theorem validate_deterministic (df : DataFrame) :
    validate df = validate df := rfl

/-- C10: when every required column is present, extra columns never
produce a schema failure — the missing set is empty and validation
proceeds to the remaining checks. -/
theorem extra_columns_pass_schema (df : DataFrame)
    (h : ∀ c ∈ required_columns, c ∈ df.columns) :
    missingCols df.columns = [] ∧ validate df = validateBody df := by
  have hf : required_columns.filter (fun c => !(df.columns.contains c)) = [] := by
    rw [List.filter_eq_nil_iff]
    intro a ha
    simp [List.contains, List.elem_eq_mem, h a ha]
  have hm : missingCols df.columns = [] := by
    unfold missingCols sortStrings
    rw [hf]
    rfl
  refine ⟨hm, ?_⟩
  unfold validate
  rw [if_pos (by simp [hm])]

/-- C10 witness: the valid dataset extended with an extra column. -/
theorem extra_columns_pass_schema_witness :
    (("SeniorCitizen" : String) ∈ dfExtra.columns ∧
      ("SeniorCitizen" : String) ∉ required_columns) ∧
    (missingCols dfExtra.columns = [] ∧
      validate dfExtra = validateBody dfExtra) :=
  ⟨⟨by decide, by decide⟩,
   extra_columns_pass_schema dfExtra (by decide)⟩

/-- C2: on every return path, `is_valid` holds exactly when the failure
list is empty — the early schema exit returns `false` with one message,
and the final aggregation computes `is_valid` from emptiness. -/
theorem is_valid_iff_no_failures (df : DataFrame) (b : Bool)
    (fs : List String) (h : validate df = Except.ok (b, fs)) :
    b = true ↔ fs = [] := by
  unfold validate at h
  by_cases hm : (missingCols df.columns).isEmpty
  · rw [if_pos hm] at h
    unfold validateBody at h
    rcases hb : bodyChecks df with e | L
    · rw [hb] at h; exact Except.noConfusion h
    rw [hb] at h
    simp only [Except.bind] at h
    by_cases hL : L.isEmpty
    · rw [if_pos hL] at h
      have := Except.ok.inj h
      rw [Prod.mk.injEq] at this
      obtain ⟨hb', hf'⟩ := this
      subst hb'
      subst hf'
      simp
    · rw [if_neg hL] at h
      have := Except.ok.inj h
      rw [Prod.mk.injEq] at this
      obtain ⟨hb', hf'⟩ := this
      subst hb'
      subst hf'
      rw [List.isEmpty_iff] at hL
      simp [hL]
  · rw [if_neg hm] at h
    have := Except.ok.inj h
    rw [Prod.mk.injEq] at this
    obtain ⟨hb', hf'⟩ := this
    subst hb'
    subst hf'
    simp

set_option maxHeartbeats 1600000 in
/-- C2 witness: the fully valid minimal dataset returns `(true, [])`, on
which the invariant is checked. -/
theorem is_valid_iff_no_failures_witness :
    validate validDf = Except.ok (true, []) ∧
    ((true : Bool) = true ↔ ([] : List String) = []) :=
  ⟨by rfl, is_valid_iff_no_failures validDf true [] (by rfl)⟩

/-- A series with a positive null count has a null entry. -/
theorem any_isNull_of_pos (s : List Value) (h : 0 < non_null_count s) :
    s.any (fun v => v.isNull) = true := by
  unfold non_null_count at h
  rw [List.length_pos] at h
  rcases List.exists_mem_of_ne_nil _ h with ⟨v, hv⟩
  have := List.mem_filter.mp hv
  exact List.any_eq_true.mpr ⟨v, this.1, this.2⟩

/-- The two null-failure wordings for `tenure` differ (their lengths
differ whatever the count). -/
theorem msg_tenure_nulls_ne (n : Nat) :
    msgColContainsNulls "tenure" n ≠ msgTenureHasNulls n := by
  intro h
  have hlen := congrArg String.length h
  simp only [msgColContainsNulls, msgTenureHasNulls,
    String.length_append] at hlen
  simp only [show ("Column '").length = 8 from rfl,
    show ("tenure").length = 6 from rfl,
    show ("' contains ").length = 11 from rfl,
    show ("'tenure' has ").length = 13 from rfl,
    show (" nulls").length = 6 from rfl] at hlen
  omega

/-- The two null-failure wordings for `MonthlyCharges` differ. -/
theorem msg_mc_nulls_ne (n : Nat) :
    msgColContainsNulls "MonthlyCharges" n ≠ msgMCHasNulls n := by
  intro h
  have hlen := congrArg String.length h
  simp only [msgColContainsNulls, msgMCHasNulls,
    String.length_append] at hlen
  simp only [show ("Column '").length = 8 from rfl,
    show ("MonthlyCharges").length = 14 from rfl,
    show ("' contains ").length = 11 from rfl,
    show ("'MonthlyCharges' has ").length = 21 from rfl,
    show (" nulls").length = 6 from rfl] at hlen
  omega

/-- C6: a dataset with all required columns and `n > 0` nulls in `tenure`
(resp. `m > 0` in `MonthlyCharges`) gets two distinct failures for that
column's nulls — one from the early null check, one from the later
numeric-column null check — both reporting the same count. -/
theorem redundant_null_checks (df : DataFrame) (b : Bool) (fs : List String)
    (n m : Nat)
    (hmissing : missingCols df.columns = [])
    (hval : validate df = Except.ok (b, fs))
    (hn : non_null_count (df.col "tenure") = n)
    (hm : non_null_count (df.col "MonthlyCharges") = m) :
    (0 < n → msgColContainsNulls "tenure" n ∈ fs ∧
      msgTenureHasNulls n ∈ fs ∧
      msgColContainsNulls "tenure" n ≠ msgTenureHasNulls n) ∧
    (0 < m → msgColContainsNulls "MonthlyCharges" m ∈ fs ∧
      msgMCHasNulls m ∈ fs ∧
      msgColContainsNulls "MonthlyCharges" m ≠ msgMCHasNulls m) := by
  unfold validate at hval
  rw [if_pos (by simp [hmissing])] at hval
  unfold validateBody at hval
  rcases hb : bodyChecks df with e | L
  · rw [hb] at hval; exact Except.noConfusion hval
  rw [hb] at hval
  simp only [Except.bind] at hval
  obtain ⟨vs, tc, nn, bd, cons, ch, _, _, _, _, _, _, hL⟩ :=
    bodyChecks_ok_inv df L hb
  have fs_of_mem : ∀ s : String, s ∈ L → s ∈ fs := by
    intro s hs
    have hne : ¬L.isEmpty := by
      rw [List.isEmpty_iff]
      intro h0
      rw [h0] at hs
      exact absurd hs (List.not_mem_nil s)
    rw [if_neg hne] at hval
    have := Except.ok.inj hval
    rw [Prod.mk.injEq] at this
    rw [← this.2]
    exact hs
  constructor
  · intro hpos
    have h2 : msgColContainsNulls "tenure" n ∈ nullCheckFailures df := by
      unfold nullCheckFailures
      refine List.mem_filterMap.mpr ⟨"tenure", by simp [key_not_null], ?_⟩
      rw [hn]
      simp [hpos]
    have h7 : msgTenureHasNulls n ∈ numericNullFailures df := by
      unfold numericNullFailures
      rw [List.mem_append]
      left
      rw [if_pos (any_isNull_of_pos _ (hn ▸ hpos)), hn]
      exact List.mem_singleton.mpr rfl
    refine ⟨fs_of_mem _ ?_, fs_of_mem _ ?_, msg_tenure_nulls_ne n⟩
    · rw [hL]; simp only [List.mem_append]; tauto
    · rw [hL]; simp only [List.mem_append]; tauto
  · intro hpos
    have h2 : msgColContainsNulls "MonthlyCharges" m ∈ nullCheckFailures df := by
      unfold nullCheckFailures
      refine List.mem_filterMap.mpr ⟨"MonthlyCharges", by simp [key_not_null], ?_⟩
      rw [hm]
      simp [hpos]
    have h7 : msgMCHasNulls m ∈ numericNullFailures df := by
      unfold numericNullFailures
      rw [List.mem_append]
      right
      rw [if_pos (any_isNull_of_pos _ (hm ▸ hpos)), hm]
      exact List.mem_singleton.mpr rfl
    refine ⟨fs_of_mem _ ?_, fs_of_mem _ ?_, msg_mc_nulls_ne m⟩
    · rw [hL]; simp only [List.mem_append]; tauto
    · rw [hL]; simp only [List.mem_append]; tauto

set_option maxHeartbeats 1600000 in
/-- C6 witness: one null `tenure` entry produces both messages with
count 1. -/
theorem redundant_null_checks_witness :
    (missingCols dfNullTenure.columns = [] ∧
      validate dfNullTenure =
        Except.ok (false, [msgColContainsNulls "tenure" 1,
          msgTenureHasNulls 1]) ∧
      non_null_count (dfNullTenure.col "tenure") = 1) ∧
    ((0 < 1 → msgColContainsNulls "tenure" 1 ∈
        [msgColContainsNulls "tenure" 1, msgTenureHasNulls 1] ∧
      msgTenureHasNulls 1 ∈
        [msgColContainsNulls "tenure" 1, msgTenureHasNulls 1] ∧
      msgColContainsNulls "tenure" 1 ≠ msgTenureHasNulls 1) ∧
    (0 < 0 → msgColContainsNulls "MonthlyCharges" 0 ∈
        [msgColContainsNulls "tenure" 1, msgTenureHasNulls 1] ∧
      msgMCHasNulls 0 ∈
        [msgColContainsNulls "tenure" 1, msgTenureHasNulls 1] ∧
      msgColContainsNulls "MonthlyCharges" 0 ≠ msgMCHasNulls 0)) :=
  ⟨⟨by decide, by rfl, by decide⟩,
   redundant_null_checks dfNullTenure false
     [msgColContainsNulls "tenure" 1, msgTenureHasNulls 1] 1 0
     (by decide) (by rfl) (by decide) (by decide)⟩

/-- Any-true of the column masks, seen row-wise. -/
theorem real_issues_any (df : DataFrame) :
    (real_issues_mask df).any id = df.rows.any rowRealIssue := by
  rw [real_issues_mask_eq_map]
  induction df.rows with
  | nil => rfl
  | cons x xs ih => simp [ih]

/-- Any-true of the non-numeric mask, seen row-wise. -/
theorem non_numeric_any (df : DataFrame) :
    (non_numeric_mask df).any id = df.rows.any rowNonNumeric := by
  rw [non_numeric_mask_eq_map]
  induction df.rows with
  | nil => rfl
  | cons x xs ih => simp [ih]

/-- Count of the real-issues mask, seen row-wise. -/
theorem real_issues_count (df : DataFrame) :
    countTrue (real_issues_mask df) = (df.rows.filter rowRealIssue).length := by
  rw [real_issues_mask_eq_map, countTrue_map]

/-- Count of the non-numeric mask, seen row-wise. -/
theorem non_numeric_count (df : DataFrame) :
    countTrue (non_numeric_mask df) =
      (df.rows.filter rowNonNumeric).length := by
  rw [non_numeric_mask_eq_map, countTrue_map]

/-- A value equal to zero is not greater than zero. -/
theorem gtB_eq_false_of_eqB (v : Value) (h : eqB v 0 = true) :
    gtB v 0 = false := by
  cases v with
  | num x =>
    simp only [eqB, decide_eq_true_eq] at h
    simp [gtB, h]
  | str s => rfl
  | null => rfl

/-- C3: with all required columns (and a `tenure` column free of strings,
as a numeric column is), if some row has a non-null non-numeric
`TotalCharges` and `tenure > 0`, exactly one failure is appended with the
count of such rows, and the diagnostic notice is suppressed; if instead
every non-null non-numeric `TotalCharges` sits at `tenure == 0`, no
failure is appended by this check and only the diagnostic notice (with
the count of non-numeric rows) is emitted. -/
theorem tc_coercion_else_relation (df : DataFrame)
    (hten : (df.col "tenure").all (fun v => !v.isStr) = true) :
    (df.rows.any rowRealIssue = true →
      tcCoercionStep df =
        Except.ok ([msgTCNonNumeric ((df.rows.filter rowRealIssue).length)],
          none)) ∧
    ((∀ r ∈ df.rows, rowNonNumeric r = true → eqB (r "tenure") 0 = true) →
      df.rows.any rowNonNumeric = true →
      tcCoercionStep df =
        Except.ok ([],
          some (msgTCDiagnostic ((df.rows.filter rowNonNumeric).length)))) := by
  constructor
  · intro hissue
    unfold tcCoercionStep
    rw [if_pos hten, if_pos (by rw [real_issues_any]; exact hissue),
      real_issues_count]
  · intro hzero hnn
    have hno : (real_issues_mask df).any id = false := by
      rw [real_issues_any]
      rw [List.any_eq_false]
      intro r hr
      simp only [Bool.not_eq_true]
      unfold rowRealIssue
      by_cases h : rowNonNumeric r = true
      · rw [h, gtB_eq_false_of_eqB _ (hzero r hr h)]
        rfl
      · rw [Bool.not_eq_true] at h
        rw [h]
        rfl
    unfold tcCoercionStep
    rw [if_pos hten, if_neg (by rw [hno]; exact Bool.false_ne_true),
      if_pos (by rw [non_numeric_any]; exact hnn), non_numeric_count]

/-- C3 witness: a single blank `TotalCharges` at `tenure = 7` yields the
coercion failure with count 1 and no diagnostic. -/
theorem tc_coercion_else_relation_witness :
    ((dfCoercion.col "tenure").all (fun v => !v.isStr) = true ∧
      dfCoercion.rows.any rowRealIssue = true) ∧
    tcCoercionStep dfCoercion =
      Except.ok ([msgTCNonNumeric ((dfCoercion.rows.filter rowRealIssue).length)],
        none) :=
  ⟨⟨by decide, by decide⟩,
   (tc_coercion_else_relation dfCoercion (by decide)).1 (by decide)⟩

/-- C9: a row whose `TotalCharges` is non-null and non-numeric but whose
`tenure` is null sets neither `real_issues_mask` nor `ok_blank_mask`
(both compare against the null tenure and are false), so when every
non-numeric row is of that shape the coercion check appends no failure. -/
theorem null_tenure_no_coercion_failure (df : DataFrame)
    (r : String → Value) (h1 : rowNonNumeric r = true)
    (h2 : r "tenure" = Value.null) :
    rowRealIssue r = false ∧ rowOkBlank r = false ∧
    ((df.col "tenure").all (fun v => !v.isStr) = true →
      (∀ s ∈ df.rows, rowNonNumeric s = true → s "tenure" = Value.null) →
      ∃ d, tcCoercionStep df = Except.ok ([], d)) := by
  refine ⟨?_, ?_, ?_⟩
  · unfold rowRealIssue
    rw [h1, h2]
    rfl
  · unfold rowOkBlank
    rw [h1, h2]
    rfl
  · intro hten hall
    have hno : (real_issues_mask df).any id = false := by
      rw [real_issues_any]
      rw [List.any_eq_false]
      intro s hs
      simp only [Bool.not_eq_true]
      unfold rowRealIssue
      by_cases h : rowNonNumeric s = true
      · rw [h, hall s hs h]
        rfl
      · rw [Bool.not_eq_true] at h
        rw [h]
        rfl
    unfold tcCoercionStep
    rw [if_pos hten, if_neg (by rw [hno]; exact Bool.false_ne_true)]
    by_cases hnn : (non_numeric_mask df).any id = true
    · exact ⟨some (msgTCDiagnostic (countTrue (non_numeric_mask df))),
        by rw [if_pos hnn]⟩
    · exact ⟨none, by rw [if_neg hnn]⟩

/-- C9 witness: the dataset whose only non-numeric `TotalCharges` row has
a null tenure appends no coercion failure. -/
theorem null_tenure_no_coercion_failure_witness :
    (rowNonNumeric blankTCNullTenureRow = true ∧
      blankTCNullTenureRow "tenure" = Value.null) ∧
    (rowRealIssue blankTCNullTenureRow = false ∧
      rowOkBlank blankTCNullTenureRow = false ∧
      ((dfBlankNullTenure.col "tenure").all (fun v => !v.isStr) = true →
        (∀ s ∈ dfBlankNullTenure.rows,
          rowNonNumeric s = true → s "tenure" = Value.null) →
        ∃ d, tcCoercionStep dfBlankNullTenure = Except.ok ([], d))) :=
  ⟨⟨by decide, by decide⟩,
   null_tenure_no_coercion_failure dfBlankNullTenure blankTCNullTenureRow
     (by decide) (by decide)⟩

/-- C4: with at least one comparable row (and a string-free
`MonthlyCharges` among them, as a numeric column is), the consistency
check appends its failure exactly when `1 - violations/total < 0.95`,
and appends nothing otherwise; `frac_ok` is that exact fraction. -/
theorem consistency_threshold_iff (df : DataFrame)
    (hcmp : (comparablePairs df).isEmpty = false)
    (hstr : (comparablePairs df).all (fun p => !p.2.isStr) = true) :
    consistencyFailures df =
      Except.ok
        (if frac_ok df < mkRat 95 100 then
          [msgConsistency (frac_ok df) (violationsCount df)
            (comparablePairs df).length]
        else []) ∧
    frac_ok df =
      1 - (violationsCount df : Rat) / ((comparablePairs df).length : Rat) := by
  constructor
  · unfold consistencyFailures
    rw [if_neg (by rw [hcmp]; exact Bool.false_ne_true), if_pos hstr]
  · unfold frac_ok
    rw [Rat.mkRat_eq_div]
    push_cast
    rfl

set_option maxHeartbeats 1600000 in
/-- C4 witness: 6 violations among 100 comparable rows trip the
threshold (and, checked directly, 5 among 100 do not). -/
theorem consistency_threshold_iff_witness :
    ((comparablePairs df100).isEmpty = false ∧
      (comparablePairs df100).all (fun p => !p.2.isStr) = true ∧
      violationsCount df100 = 6 ∧ (comparablePairs df100).length = 100 ∧
      frac_ok df100 < mkRat 95 100) ∧
    (consistencyFailures df100 =
      Except.ok
        (if frac_ok df100 < mkRat 95 100 then
          [msgConsistency (frac_ok df100) (violationsCount df100)
            (comparablePairs df100).length]
        else []) ∧
      frac_ok df100 =
        1 - (violationsCount df100 : Rat) /
          ((comparablePairs df100).length : Rat)) ∧
    (violationsCount df100ok = 5 ∧ (comparablePairs df100ok).length = 100 ∧
      consistencyFailures df100ok = Except.ok []) :=
  ⟨⟨by decide, by decide, by decide, by decide, by decide⟩,
   consistency_threshold_iff df100 (by decide) (by decide),
   ⟨by decide, by decide, by rfl⟩⟩

/-- `sortValues` succeeds on an all-string list. -/
theorem sortValues_ok_of_str (vs : List Value)
    (h : vs.all (fun v => v.isStr) = true) :
    sortValues vs = Except.ok (sortLe valueLe vs) := by
  unfold sortValues
  rw [if_pos (by rw [h]; rfl)]

/-- Values surviving `uniqueVals` come from the series and are non-null. -/
theorem mem_uniqueVals (s : List Value) (v : Value) (h : v ∈ uniqueVals s) :
    v ∈ s ∧ v.isNull = false := by
  unfold uniqueVals at h
  have h2 := List.mem_filter.mp (List.mem_dedup.mp h)
  exact ⟨h2.1, by simpa using h2.2⟩

/-- A non-null, non-number value is a string. -/
theorem isStr_of_not_num (v : Value) (h1 : v.isNull = false)
    (h2 : v.isNum = false) : v.isStr = true := by
  cases v <;> simp_all [Value.isNull, Value.isNum, Value.isStr]

/-- Sorting the filtered distinct values of a number-free series cannot
raise. -/
theorem sortValues_filter_ok (s : List Value) (p : Value → Bool)
    (h : s.all (fun v => !v.isNum) = true) :
    ∃ l, sortValues ((uniqueVals s).filter p) = Except.ok l := by
  refine ⟨_, sortValues_ok_of_str _ ?_⟩
  rw [List.all_eq_true]
  intro v hv
  obtain ⟨hmem, hnull⟩ := mem_uniqueVals s v (List.mem_filter.mp hv).1
  have hnum := List.all_eq_true.mp h v hmem
  exact isStr_of_not_num v hnull (by simpa using hnum)

/-- `check_in_set` succeeds when the column holds no numbers. -/
theorem check_in_set_ok (df : DataFrame) (c : String)
    (allowed : List String)
    (h : (df.col c).all (fun v => !v.isNum) = true) :
    ∃ l, check_in_set df c allowed = Except.ok l := by
  obtain ⟨l, hl⟩ := sortValues_filter_ok (df.col c)
    (fun v => !(allowed.any (fun a => v == Value.str a))) h
  exact ⟨_, by unfold check_in_set; rw [hl]; rfl⟩

/-- The `Churn` sanity check succeeds when the column holds no numbers. -/
theorem churnFailures_ok (df : DataFrame)
    (h : (df.col "Churn").all (fun v => !v.isNum) = true) :
    ∃ l, churnFailures df = Except.ok l := by
  obtain ⟨l, hl⟩ := sortValues_filter_ok (df.col "Churn")
    (fun v => !(v == Value.str "Yes" || v == Value.str "No")) h
  exact ⟨_, by unfold churnFailures; rw [hl]; rfl⟩

/-- A bind of a successful computation succeeds when its continuation
does. -/
theorem bind_ok_ex {α β : Type} (x : Except String α)
    (f : α → Except String β) (a : α) (hx : x = Except.ok a)
    (hf : ∃ b, f a = Except.ok b) :
    ∃ b, Except.bind x f = Except.ok b := by
  rw [hx]
  simpa only [Except.bind] using hf

/-- The six value-set checks succeed when their columns hold no
numbers. -/
theorem valueSetFailures_ok (df : DataFrame)
    (hg : (df.col "gender").all (fun v => !v.isNum) = true)
    (hp : (df.col "Partner").all (fun v => !v.isNum) = true)
    (hd : (df.col "Dependents").all (fun v => !v.isNum) = true)
    (hps : (df.col "PhoneService").all (fun v => !v.isNum) = true)
    (hco : (df.col "Contract").all (fun v => !v.isNum) = true)
    (hi : (df.col "InternetService").all (fun v => !v.isNum) = true) :
    ∃ l, valueSetFailures df = Except.ok l := by
  obtain ⟨l1, e1⟩ := check_in_set_ok df "gender" ["Male", "Female"] hg
  obtain ⟨l2, e2⟩ := check_in_set_ok df "Partner" ["Yes", "No"] hp
  obtain ⟨l3, e3⟩ := check_in_set_ok df "Dependents" ["Yes", "No"] hd
  obtain ⟨l4, e4⟩ := check_in_set_ok df "PhoneService" ["Yes", "No"] hps
  obtain ⟨l5, e5⟩ := check_in_set_ok df "Contract"
    ["Month-to-month", "One year", "Two year"] hco
  obtain ⟨l6, e6⟩ := check_in_set_ok df "InternetService"
    ["DSL", "Fiber optic", "No"] hi
  unfold valueSetFailures
  exact bind_ok_ex _ _ _ e1 (bind_ok_ex _ _ _ e2 (bind_ok_ex _ _ _ e3
    (bind_ok_ex _ _ _ e4 (bind_ok_ex _ _ _ e5
      (bind_ok_ex _ _ _ e6 ⟨_, rfl⟩)))))

/-- The non-negativity step succeeds on string-free numeric columns. -/
theorem nonNegFailures_ok (df : DataFrame)
    (h1 : (df.col "tenure").all (fun v => !v.isStr) = true)
    (h2 : (df.col "MonthlyCharges").all (fun v => !v.isStr) = true) :
    ∃ l, nonNegFailures df = Except.ok l := by
  have e1 : seriesLtScalar (df.col "tenure") 0 =
      Except.ok ((df.col "tenure").map (fun v => ltB v 0)) := by
    unfold seriesLtScalar
    rw [if_pos h1]
  have e2 : seriesLtScalar (df.col "MonthlyCharges") 0 =
      Except.ok ((df.col "MonthlyCharges").map (fun v => ltB v 0)) := by
    unfold seriesLtScalar
    rw [if_pos h2]
  unfold nonNegFailures
  exact bind_ok_ex _ _ _ e1 (bind_ok_ex _ _ _ e2 ⟨_, rfl⟩)

/-- The bounds step succeeds on string-free numeric columns. -/
theorem boundsFailures_ok (df : DataFrame)
    (h1 : (df.col "tenure").all (fun v => !v.isStr) = true)
    (h2 : (df.col "MonthlyCharges").all (fun v => !v.isStr) = true) :
    ∃ l, boundsFailures df = Except.ok l := by
  have e1 : seriesGtScalar (df.col "tenure") 120 =
      Except.ok ((df.col "tenure").map (fun v => gtB v 120)) := by
    unfold seriesGtScalar
    rw [if_pos h1]
  have e2 : seriesGtScalar (df.col "MonthlyCharges") 200 =
      Except.ok ((df.col "MonthlyCharges").map (fun v => gtB v 200)) := by
    unfold seriesGtScalar
    rw [if_pos h2]
  unfold boundsFailures
  exact bind_ok_ex _ _ _ e1 (bind_ok_ex _ _ _ e2 ⟨_, rfl⟩)

/-- The consistency step succeeds on a string-free `MonthlyCharges`. -/
theorem consistencyFailures_ok (df : DataFrame)
    (h : (df.col "MonthlyCharges").all (fun v => !v.isStr) = true) :
    ∃ l, consistencyFailures df = Except.ok l := by
  unfold consistencyFailures
  by_cases hemp : (comparablePairs df).isEmpty
  · exact ⟨_, by rw [if_pos hemp]⟩
  · have hall : (comparablePairs df).all (fun p => !p.2.isStr) = true := by
      rw [List.all_eq_true]
      intro p hp
      obtain ⟨a, b⟩ := p
      have hz := (List.mem_filter.mp hp).1
      have hb := (List.of_mem_zip hz).2
      simpa using List.all_eq_true.mp h b hb
    exact ⟨_, by rw [if_neg hemp, if_pos hall]⟩

/-- C7: on every well-formed dataset (columns typed as a standard
CSV import of this dataset delivers them), `validate` returns normally — no
embedded `TypeError` is reached, whatever the data quality. -/
theorem validate_total_on_wellformed (df : DataFrame)
    (h : wellFormedB df = true) : ∃ r, validate df = Except.ok r := by
  unfold wellFormedB at h
  simp only [Bool.and_eq_true, List.all_cons, List.all_nil,
    Bool.and_true] at h
  obtain ⟨⟨hten, hmc⟩, hg, hp, hd, hps, hco, hi, hch⟩ := h
  by_cases hm : (missingCols df.columns).isEmpty
  · have htc : ∃ t, tcCoercionStep df = Except.ok t :=
      ⟨if (real_issues_mask df).any id then
          ([msgTCNonNumeric (countTrue (real_issues_mask df))], none)
        else if (non_numeric_mask df).any id then
          ([], some (msgTCDiagnostic (countTrue (non_numeric_mask df))))
        else ([], none),
       by unfold tcCoercionStep; rw [if_pos hten]⟩
    have hbody : ∃ L, bodyChecks df = Except.ok L := by
      obtain ⟨vs, hvs⟩ := valueSetFailures_ok df hg hp hd hps hco hi
      obtain ⟨tc, htc2⟩ := htc
      obtain ⟨nn, hnn⟩ := nonNegFailures_ok df hten hmc
      obtain ⟨bd, hbd⟩ := boundsFailures_ok df hten hmc
      obtain ⟨cons, hcons⟩ := consistencyFailures_ok df hmc
      obtain ⟨ch, hchk⟩ := churnFailures_ok df hch
      unfold bodyChecks
      exact bind_ok_ex _ _ _ hvs (bind_ok_ex _ _ _ htc2
        (bind_ok_ex _ _ _ hnn (bind_ok_ex _ _ _ hbd
          (bind_ok_ex _ _ _ hcons (bind_ok_ex _ _ _ hchk ⟨_, rfl⟩)))))
    obtain ⟨L, hL⟩ := hbody
    unfold validate validateBody
    rw [if_pos hm]
    refine bind_ok_ex _ _ _ hL ?_
    by_cases hLe : L.isEmpty
    · exact ⟨(true, []), by rw [if_pos hLe]⟩
    · exact ⟨(false, L), by rw [if_neg hLe]⟩
  · unfold validate
    rw [if_neg hm]
    exact ⟨_, rfl⟩

set_option maxHeartbeats 1600000 in
/-- C7 witness: the valid minimal dataset is well formed and `validate`
returns on it. -/
theorem validate_total_on_wellformed_witness :
    wellFormedB validDf = true ∧ ∃ r, validate validDf = Except.ok r :=
  ⟨by decide, validate_total_on_wellformed validDf (by decide)⟩

end Telco
